import Mathlib

/-!
# GLESRenderer: a shallow embedding

The definitions below embed the parts of `app/src/main/cpp/GLESRenderer.cpp`
that carry logic of their own: the OBJ flattening loop of `loadObjModel`, the
asset reading loop of `readAsset`, the aspect-ratio fit and the hit-test quad of
`renderVideoPlayback`, the texture handles of `createTexture`/`deinit`, and
the location queries of `init`.

Conventions.
* `float` values are exact rationals (`GLfloat := Rat`).  `loadObjModel` only
  copies them; the aspect-ratio code is studied over exact arithmetic.
* A C++ computation whose behaviour is undefined (a read outside a
  `std::vector`, an overflowing `int`) yields `none`.
* Calls into libraries (tinyobj, the Android asset manager, OpenGL ES) are
  inputs of the model: the model receives what the library returned.
-/

namespace GLESRenderer

/-- Stand-in for `float` / `GLfloat`. -/
abbrev GLfloat := Rat

/-! ## tinyobj data, as far as `loadObjModel` reads it -/

/-- Mirror of `tinyobj::index_t`. -/
structure index_t where
  vertex_index : Int
  normal_index : Int
  texcoord_index : Int
  deriving DecidableEq, Repr

/-- Mirror of `tinyobj::mesh_t`: the flattened index list and the number of
vertices of each face (an unsigned quantity). -/
structure mesh_t where
  indices : List index_t
  num_face_vertices : List Nat
  deriving DecidableEq, Repr

/-- Mirror of `tinyobj::shape_t`. -/
structure shape_t where
  name : String
  mesh : mesh_t
  deriving DecidableEq, Repr

/-- Mirror of `tinyobj::attrib_t`. -/
structure attrib_t where
  vertices : List GLfloat
  normals : List GLfloat
  texcoords : List GLfloat
  deriving DecidableEq, Repr

/-- Everything `tinyobj::LoadObj` hands back: its return value, the two message
strings and the parsed data. -/
structure LoadObjResult where
  ret : Bool
  warn : String
  err : String
  attrib : attrib_t
  shapes : List shape_t
  deriving DecidableEq, Repr

/-- The three reference parameters of `loadObjModel`. -/
structure ModelData where
  numVertices : Int
  vertices : List GLfloat
  texCoords : List GLfloat
  deriving DecidableEq, Repr

/-- Largest value of a 32-bit `int`, plus one. -/
def INT_LIMIT : Int := 2147483648

/-- `xs[i]` for an `int` expression `i`: defined when `i` is a representable,
non-negative `int` inside the vector. -/
def readAt (xs : List GLfloat) (i : Int) : Option GLfloat :=
  if 0 ≤ i ∧ i < INT_LIMIT then xs[i.toNat]? else none

/-- `numVertices += fv` on an `int`: defined when the sum is representable. -/
def addInt (a : Int) (fv : Nat) : Option Int :=
  if a + (fv : Int) < INT_LIMIT ∧ -INT_LIMIT ≤ a + (fv : Int) then some (a + (fv : Int)) else none

/-- Body of the innermost loop of `loadObjModel` for the entry at position
`pos = index_offset + v` of `mesh.indices`. -/
def emitVertex (attrib : attrib_t) (indices : List index_t) (pos : Nat)
    (out : ModelData) : Option ModelData := do
  let idx ← indices[pos]?
  let x ← readAt attrib.vertices (3 * idx.vertex_index + 0)
  let y ← readAt attrib.vertices (3 * idx.vertex_index + 1)
  let z ← readAt attrib.vertices (3 * idx.vertex_index + 2)
  let vertices := out.vertices ++ [x] ++ [y] ++ [z]
  if idx.texcoord_index < 0 then
    some { out with vertices := vertices, texCoords := out.texCoords ++ [0] ++ [0] }
  else do
    let s ← readAt attrib.texcoords (2 * idx.texcoord_index + 0)
    let t ← readAt attrib.texcoords (2 * idx.texcoord_index + 1)
    some { out with vertices := vertices, texCoords := out.texCoords ++ [s] ++ [t] }

/-- The loop `for (size_t v = 0; v < fv; ++v)`: `n` iterations remain and the
loop variable is `v`. -/
def vertexLoop (attrib : attrib_t) (indices : List index_t) (index_offset : Nat) :
    Nat → Nat → ModelData → Option ModelData
  | 0, _, out => some out
  | n + 1, v, out =>
    match emitVertex attrib indices (index_offset + v) out with
    | none => none
    | some out1 => vertexLoop attrib indices index_offset n (v + 1) out1

/-- The loop over the faces of one shape; the list holds the entries of
`num_face_vertices` not yet visited. -/
def faceLoop (attrib : attrib_t) (indices : List index_t) :
    List Nat → Nat → ModelData → Option ModelData
  | [], _, out => some out
  | fv :: rest, index_offset, out =>
    match addInt out.numVertices fv with
    | none => none
    | some nv =>
      match vertexLoop attrib indices index_offset fv 0 { out with numVertices := nv } with
      | none => none
      | some out1 => faceLoop attrib indices rest (index_offset + fv) out1

/-- The loop over the shapes. -/
def shapeLoop (attrib : attrib_t) : List shape_t → ModelData → Option ModelData
  | [], out => some out
  | s :: rest, out =>
    match faceLoop attrib s.mesh.indices s.mesh.num_face_vertices 0 out with
    | none => none
    | some out1 => shapeLoop attrib rest out1

/-- `GLESRenderer::loadObjModel`, given what `tinyobj::LoadObj` returned for
`data` and the values the three reference parameters had on entry.  The result
is the returned `bool` with the final values of the reference parameters. -/
def loadObjModel (r : LoadObjResult) (entry : ModelData) : Option (Bool × ModelData) :=
  if !r.ret || !r.err.isEmpty then
    some (false, entry)
  else
    match shapeLoop r.attrib r.shapes { numVertices := 0, vertices := [], texCoords := [] } with
    | none => none
    | some out => some (true, out)

/-! ### Reading the result of `loadObjModel` -/

/-- All index entries in the order the loops visit them. -/
def allIndices (shapes : List shape_t) : List index_t :=
  shapes.flatMap (fun s => s.mesh.indices)

/-- Sum of `num_face_vertices` over all faces of all shapes. -/
def totalFaceVertices (shapes : List shape_t) : Nat :=
  (shapes.map (fun s => s.mesh.num_face_vertices.sum)).sum

/-- The index entry can be dereferenced by `emitVertex`. -/
def IndexInRange (attrib : attrib_t) (idx : index_t) : Prop :=
  0 ≤ idx.vertex_index ∧ 3 * idx.vertex_index + 2 < INT_LIMIT ∧
  3 * idx.vertex_index + 2 < attrib.vertices.length ∧
  (idx.texcoord_index < 0 ∨
    (2 * idx.texcoord_index + 1 < INT_LIMIT ∧
     2 * idx.texcoord_index + 1 < attrib.texcoords.length))

instance (attrib : attrib_t) (idx : index_t) : Decidable (IndexInRange attrib idx) := by
  unfold IndexInRange; infer_instance

/-- What a successful `tinyobj::LoadObj` with in-range indices provides: every
mesh lists exactly one index entry per face vertex, every entry can be
dereferenced, and the number of face vertices fits an `int`. -/
def ParsedInRange (attrib : attrib_t) (shapes : List shape_t) : Prop :=
  (∀ s ∈ shapes, s.mesh.indices.length = s.mesh.num_face_vertices.sum) ∧
  (∀ idx ∈ allIndices shapes, IndexInRange attrib idx) ∧
  (totalFaceVertices shapes : Int) < INT_LIMIT

instance (attrib : attrib_t) (shapes : List shape_t) : Decidable (ParsedInRange attrib shapes) := by
  unfold ParsedInRange; infer_instance

/-- The triple `attrib.vertices[3*i .. 3*i+2]` for `i = idx.vertex_index`. -/
def vertexOf (attrib : attrib_t) (idx : index_t) : List GLfloat :=
  (attrib.vertices.drop (3 * idx.vertex_index).toNat).take 3

/-- The pair `(attrib.texcoords[2*t], attrib.texcoords[2*t+1])` for
`t = idx.texcoord_index`, or `(0, 0)` when `t` is negative. -/
def texCoordOf (attrib : attrib_t) (idx : index_t) : List GLfloat :=
  if idx.texcoord_index < 0 then [0, 0]
  else (attrib.texcoords.drop (2 * idx.texcoord_index).toNat).take 2

/-- The `k`-th block of `n` consecutive entries of a flat array. -/
def block (n : Nat) (xs : List GLfloat) (k : Nat) : List GLfloat :=
  (xs.drop (n * k)).take n

/-- A small parse result: three vertices, two texture coordinates, two
triangles in two shapes, one face vertex without a texture coordinate. -/
def sampleObj : LoadObjResult :=
  { ret := true
    warn := "material file not found"
    err := ""
    attrib := { vertices := [1, 2, 3, 4, 5, 6, 7, 8, 9], normals := [], texcoords := [10, 11, 12, 13] }
    shapes :=
      [ { name := "a"
          mesh := { indices := [⟨0, -1, 0⟩, ⟨1, -1, -1⟩, ⟨2, -1, 1⟩], num_face_vertices := [3] } },
        { name := "b"
          mesh := { indices := [⟨2, -1, 1⟩, ⟨1, -1, 0⟩, ⟨0, -1, 1⟩], num_face_vertices := [3] } } ] }

/-- Values of the reference parameters before a call. -/
def sampleEntry : ModelData := { numVertices := 7, vertices := [42], texCoords := [43, 44] }

/-- A parse that failed with an error message. -/
def failedObj : LoadObjResult :=
  { sampleObj with ret := false, err := "Cannot read stream" }

/-! ## `readAsset` -/

/-- One `char`. -/
abbrev Byte := Nat

/-- How a sequence of `AAsset_read` calls ends: with 0 at the end of the file or
with a negative value on a read failure. -/
inductive ReadEnd where
  | eof
  | failure
  deriving DecidableEq, Repr

/-- Return value of the `AAsset_read` call that ends the sequence. -/
def ReadEnd.nb_read : ReadEnd → Int
  | ReadEnd.eof => 0
  | ReadEnd.failure => -1

/-- An opened asset as `readAsset` observes it: the value of `AAsset_getLength`,
the chunks that successive `AAsset_read` calls deliver (a call returns the
length of its chunk and stores the chunk at the start of `buf`), and how the
sequence ends. -/
structure AAsset where
  length : Nat
  chunks : List (List Byte)
  ending : ReadEnd
  deriving DecidableEq, Repr

/-- The reads respect the `AAsset_read` contract for a buffer of `count`
chars: every delivered chunk has between 1 and `count` bytes. -/
def AAsset.WellFormed (count : Nat) (asset : AAsset) : Prop :=
  ∀ c ∈ asset.chunks, 0 < c.length ∧ c.length ≤ count

instance (count : Nat) (asset : AAsset) : Decidable (asset.WellFormed count) := by
  unfold AAsset.WellFormed; infer_instance

/-- Contents of `buf` after `AAsset_read` stored chunk `c` in it. -/
def storeChunk (c : List Byte) (buf : List Byte) : List Byte :=
  c ++ buf.drop c.length

/-- The loop `while ((nb_read = AAsset_read(asset, buf, BUFSIZ)) > 0)` with its
body `std::copy(&buf[0], &buf[BUFSIZ], std::back_inserter(data))`.  Returns
the last `nb_read` and the final `data`. -/
def readLoop (BUFSIZ : Nat) (ending : ReadEnd) :
    List (List Byte) → List Byte → List Byte → Int × List Byte
  | [], _, data => (ending.nb_read, data)
  | c :: rest, buf, data =>
    let nb_read : Int := (c.length : Int)
    let buf1 := storeChunk c buf
    if nb_read > 0 then
      readLoop BUFSIZ ending rest buf1 (data ++ buf1.take BUFSIZ)
    else
      (nb_read, data)

/-- `GLESRenderer::readAsset`.  `opened` is what `AAssetManager_open` returned
(`none` for `nullptr`), `buf` the initial contents of the local array
`char buf[BUFSIZ]`, `data` the vector on entry.  Returns the `bool` and the
final `data`. -/
def readAsset (BUFSIZ : Nat) (opened : Option AAsset) (buf : List Byte) (data : List Byte) :
    Bool × List Byte :=
  match opened with
  | none => (false, data)
  | some asset =>
    let r := readLoop BUFSIZ asset.ending asset.chunks buf data
    if r.1 < 0 then (false, r.2) else (true, r.2)

/-- The bytes the asset delivered: the concatenation of the chunks. -/
def AAsset.content (asset : AAsset) : List Byte := asset.chunks.flatten

/-- An asset holding the single byte `v`, delivered by one read. -/
def oneByteAsset : AAsset := { length := 1, chunks := [[118]], ending := ReadEnd.eof }

/-! ## `renderVideoPlayback`: the quad fitted to the marker -/

/-- Modelled from the spec: the members `_fullscreenFlg`, `_vVideoWidth`,
`_vVideoHeight`, `_screenWidth` and `_screenHeight` are declared in
`GLESRenderer.h`, which is not among the sources; the sizes are taken as
numbers with exact division, as the aspect-ratio property is stated. -/
structure VideoState where
  _fullscreenFlg : Bool
  _vVideoWidth : GLfloat
  _vVideoHeight : GLfloat
  _screenWidth : GLfloat
  _screenHeight : GLfloat
  deriving DecidableEq, Repr

/-- The half-extents `(scaleX, scaleY)` computed at the start of
`renderVideoPlayback`; `markerSize` is `(markerSize.data[0], markerSize.data[1])`. -/
def quadScale (st : VideoState) (markerSize : GLfloat × GLfloat) : GLfloat × GLfloat :=
  let scaleX : GLfloat := 1 / 2
  let scaleY : GLfloat := 1 / 2
  if st._fullscreenFlg then
    let scaleX : GLfloat := 1
    let scaleY : GLfloat := 1
    let videoAspect := st._vVideoWidth / st._vVideoHeight
    let screenAspect := st._screenWidth / st._screenHeight
    if screenAspect > videoAspect then
      (videoAspect / screenAspect, scaleY)
    else
      (scaleX, screenAspect / videoAspect)
  else
    let markerAspect := markerSize.1 / markerSize.2
    let videoAspect := st._vVideoWidth / st._vVideoHeight
    if markerAspect > videoAspect then
      (scaleX * (videoAspect / markerAspect), scaleY)
    else
      (scaleX, scaleY * (markerAspect / videoAspect))

/-- The array `GLfloat vertices[]` of `renderVideoPlayback`. -/
def quadVertices (scaleX scaleY : GLfloat) : List GLfloat :=
  [-scaleX, -scaleY, 0,
    scaleX, -scaleY, 0,
   -scaleX,  scaleY, 0,
    scaleX,  scaleY, 0]

/-- Four floats, as `glm::vec4`. -/
structure vec4 where
  x : GLfloat
  y : GLfloat
  z : GLfloat
  w : GLfloat
  deriving DecidableEq, Repr

/-- Two floats, as `glm::vec2`. -/
structure vec2 where
  x : GLfloat
  y : GLfloat
  deriving DecidableEq, Repr

/-- Sixteen floats in column-major order (`VuMatrix44F::data`); entry
`(row, col)` is `data[4 * col + row]`. -/
abbrev VuMatrix44F := List GLfloat

/-- Entry `(row, col)` of a column-major matrix. -/
def VuMatrix44F.entry (m : VuMatrix44F) (row col : Nat) : GLfloat :=
  m.getD (4 * col + row) 0

/-- The Vuforia SDK operation `vuMatrix44FMultiplyMatrix(A, B)`: the matrix
product `A * B` of two column-major matrices. -/
def vuMatrix44FMultiplyMatrix (A B : VuMatrix44F) : VuMatrix44F :=
  (List.range 16).map (fun i =>
    let row := i % 4
    let col := i / 4
    A.entry row 0 * B.entry 0 col + A.entry row 1 * B.entry 1 col +
      A.entry row 2 * B.entry 2 col + A.entry row 3 * B.entry 3 col)

/-- The product `glm::make_mat4(data) * pos`. -/
def mulVec (m : VuMatrix44F) (p : vec4) : vec4 :=
  { x := m.entry 0 0 * p.x + m.entry 0 1 * p.y + m.entry 0 2 * p.z + m.entry 0 3 * p.w
    y := m.entry 1 0 * p.x + m.entry 1 1 * p.y + m.entry 1 2 * p.z + m.entry 1 3 * p.w
    z := m.entry 2 0 * p.x + m.entry 2 1 * p.y + m.entry 2 2 * p.z + m.entry 2 3 * p.w
    w := m.entry 3 0 * p.x + m.entry 3 1 * p.y + m.entry 3 2 * p.z + m.entry 3 3 * p.w }

/-- Body of the loop over `lpct` in `renderVideoPlayback`: vertex `lpct` of
`vertices`, transformed and divided by `w`, with `x` and `y` kept. -/
def ndcPoint (m : VuMatrix44F) (vertices : List GLfloat) (lpct : Nat) : vec2 :=
  let pos : vec4 :=
    ⟨vertices.getD (lpct * 3) 0, vertices.getD (lpct * 3 + 1) 0, vertices.getD (lpct * 3 + 2) 0, 1⟩
  let glpos := mulVec m pos
  ⟨glpos.x / glpos.w, glpos.y / glpos.w⟩

/-- The value stored in `_ndcQuadPoints[targetName]` (without its time stamp)
by a call of `renderVideoPlayback`. -/
def ndcQuadPoints (st : VideoState) (projectionMatrix scaledModelViewMatrix : VuMatrix44F)
    (markerSize : GLfloat × GLfloat) : List vec2 :=
  let scaledModelViewProjectionMatrix :=
    vuMatrix44FMultiplyMatrix projectionMatrix scaledModelViewMatrix
  let scale := quadScale st markerSize
  let vertices := quadVertices scale.1 scale.2
  [0, 1, 3, 2].map (fun lpct => ndcPoint scaledModelViewProjectionMatrix vertices lpct)

/-- Image of the point `(x, y, 0)` under the matrix `m`, followed by the
division by `w`. -/
def project (m : VuMatrix44F) (x y : GLfloat) : vec2 :=
  let p := mulVec m ⟨x, y, 0, 1⟩
  ⟨p.x / p.w, p.y / p.w⟩

/-- The corners of the quad in the order in which the loop visits them. -/
def visitedCorners (scaleX scaleY : GLfloat) : List (GLfloat × GLfloat) :=
  [0, 1, 3, 2].map (fun lpct =>
    ((quadVertices scaleX scaleY).getD (lpct * 3) 0, (quadVertices scaleX scaleY).getD (lpct * 3 + 1) 0))

/-- Two corners are the ends of one edge of the axis-aligned quad: they differ
in exactly one coordinate (a diagonal differs in both). -/
def OnOneEdge (p q : GLfloat × GLfloat) : Prop :=
  (p.1 = q.1 ∧ p.2 ≠ q.2) ∨ (p.1 ≠ q.1 ∧ p.2 = q.2)

instance (p q : GLfloat × GLfloat) : Decidable (OnOneEdge p q) := by
  unfold OnOneEdge; infer_instance

/-- A video of 1920 x 1080 shown on a marker, not in full screen. -/
def sampleVideo : VideoState :=
  { _fullscreenFlg := false, _vVideoWidth := 1920, _vVideoHeight := 1080,
    _screenWidth := 1080, _screenHeight := 2400 }

/-- The identity matrix. -/
def identityMatrix : VuMatrix44F := [1, 0, 0, 0, 0, 1, 0, 0, 0, 0, 1, 0, 0, 0, 0, 1]

/-! ## Texture handles: `createTexture`, `setAstronautTexture`, `setPauseTexture`, `deinit` -/

/-- The sentinel `-1` as it is stored in and compared with a `GLuint` handle. -/
def NO_TEXTURE : Nat := 4294967295

/-- Modelled from the spec: `GLESUtils::createTexture` and
`GLESUtils::destroyTexture` are defined in `GLESUtils.cpp`, which is not among
the sources.  `live` lists the ids of the textures created and not yet
destroyed; `destroyCalls` records every `destroyTexture` call: its argument and
whether that id was live when the call was made. -/
structure GLTextures where
  live : List Nat
  destroyCalls : List (Nat × Bool)
  deriving DecidableEq, Repr

/-- Modelled from the spec: `GLESUtils::destroyTexture(id)` destroys the
texture `id`. -/
def GLESUtils.destroyTexture (gl : GLTextures) (id : Nat) : GLTextures :=
  { live := gl.live.filter (fun t => t ≠ id)
    destroyCalls := gl.destroyCalls ++ [(id, decide (id ∈ gl.live))] }

/-- Modelled from the spec: `GLESUtils::createTexture(width, height, bytes)`
creates a texture and returns its id; `newId` is the id the driver hands out
for it.  The pixel data plays no part in the handle logic. -/
def GLESUtils.createTexture (gl : GLTextures) (newId : Nat) : GLTextures × Nat :=
  ({ gl with live := newId :: gl.live }, newId)

/-- The texture handles of the renderer together with the GL textures.  The
three members are declared in `GLESRenderer.h`; each holds a texture id or the
sentinel `-1`. -/
structure Textures where
  gl : GLTextures
  mModelTargetGuideViewTextureUnit : Nat
  mAstronautTextureId : Nat
  mPauseTextureId : Nat
  deriving DecidableEq, Repr

/-- The first statement of `GLESRenderer::createTexture`:
`if (textureId != -1) { destroyTexture(textureId); textureId = -1; }`. -/
def releaseHeld (gl : GLTextures) (textureId : Nat) : GLTextures × Nat :=
  if textureId ≠ NO_TEXTURE then
    (GLESUtils.destroyTexture gl textureId, NO_TEXTURE)
  else
    (gl, textureId)

/-- `GLESRenderer::createTexture(width, height, bytes, textureId)`: returns the
GL textures and the new value of the reference parameter `textureId`. -/
def createTexture (gl : GLTextures) (textureId : Nat) (newId : Nat) : GLTextures × Nat :=
  GLESUtils.createTexture (releaseHeld gl textureId).1 newId

/-- `GLESRenderer::setAstronautTexture`. -/
def setAstronautTexture (s : Textures) (newId : Nat) : Textures :=
  let r := createTexture s.gl s.mAstronautTextureId newId
  { s with gl := r.1, mAstronautTextureId := r.2 }

/-- `GLESRenderer::setPauseTexture`. -/
def setPauseTexture (s : Textures) (newId : Nat) : Textures :=
  let r := createTexture s.gl s.mPauseTextureId newId
  { s with gl := r.1, mPauseTextureId := r.2 }

/-- `GLESRenderer::deinit`. -/
def deinit (s : Textures) : Textures :=
  let s1 : Textures :=
    if s.mModelTargetGuideViewTextureUnit ≠ NO_TEXTURE then
      { s with gl := GLESUtils.destroyTexture s.gl s.mModelTargetGuideViewTextureUnit,
               mModelTargetGuideViewTextureUnit := NO_TEXTURE }
    else s
  let s2 : Textures :=
    if s1.mAstronautTextureId ≠ NO_TEXTURE then
      { s1 with gl := GLESUtils.destroyTexture s1.gl s1.mAstronautTextureId,
                mAstronautTextureId := NO_TEXTURE }
    else s1
  if s2.mPauseTextureId ≠ NO_TEXTURE then
    { s2 with gl := GLESUtils.destroyTexture s2.gl s2.mPauseTextureId,
              mPauseTextureId := NO_TEXTURE }
  else s2

/-- One call on the renderer; a `set` call carries the id the driver hands out
for the texture it creates. -/
inductive Call where
  | setAstronautTexture (newId : Nat)
  | setPauseTexture (newId : Nat)
  | deinit
  deriving DecidableEq, Repr

/-- Effect of one call. -/
def step (s : Textures) : Call → Textures
  | Call.setAstronautTexture newId => setAstronautTexture s newId
  | Call.setPauseTexture newId => setPauseTexture s newId
  | Call.deinit => deinit s

/-- Effect of a sequence of calls. -/
def run (s : Textures) : List Call → Textures
  | [] => s
  | c :: cs => run (step s c) cs

/-- The driver hands out an id that no live texture has at the moment the
texture is created (after the held one was destroyed). -/
def FreshCall (s : Textures) : Call → Prop
  | Call.setAstronautTexture newId => newId ∉ (releaseHeld s.gl s.mAstronautTextureId).1.live
  | Call.setPauseTexture newId => newId ∉ (releaseHeld s.gl s.mPauseTextureId).1.live
  | Call.deinit => True

instance (s : Textures) (c : Call) : Decidable (FreshCall s c) := by
  cases c <;> unfold FreshCall <;> infer_instance

/-- Every call of the sequence receives a fresh id. -/
def FreshRun : Textures → List Call → Prop
  | _, [] => True
  | s, c :: cs => FreshCall s c ∧ FreshRun (step s c) cs

instance : (s : Textures) → (cs : List Call) → Decidable (FreshRun s cs)
  | _, [] => isTrue trivial
  | s, c :: cs =>
    have := instDecidableFreshRun (step s c) cs
    show Decidable (FreshCall s c ∧ FreshRun (step s c) cs) from inferInstance

/-- The state in which the three handles hold `-1`; `live0` are the textures
owned by other parts of the program. -/
def initialTextures (live0 : List Nat) : Textures :=
  { gl := { live := live0, destroyCalls := [] }
    mModelTargetGuideViewTextureUnit := NO_TEXTURE
    mAstronautTextureId := NO_TEXTURE
    mPauseTextureId := NO_TEXTURE }

/-- A handle is `-1` or the id of a texture created and not yet destroyed. -/
def HandleValid (gl : GLTextures) (h : Nat) : Prop :=
  h = NO_TEXTURE ∨ h ∈ gl.live

/-- The three handles are valid. -/
def HandlesValid (s : Textures) : Prop :=
  HandleValid s.gl s.mModelTargetGuideViewTextureUnit ∧
  HandleValid s.gl s.mAstronautTextureId ∧
  HandleValid s.gl s.mPauseTextureId

/-- Every `destroyTexture` call so far hit a live texture. -/
def NoDoubleDestroy (gl : GLTextures) : Prop :=
  ∀ c ∈ gl.destroyCalls, c.2 = true

/-- A sequence of calls: two textures set, one replaced, then `deinit` twice. -/
def sampleCalls : List Call :=
  [Call.setAstronautTexture 1, Call.setPauseTexture 2, Call.setAstronautTexture 1,
   Call.deinit, Call.setPauseTexture 1, Call.deinit, Call.deinit]

/-- What holds of the handles along every run from `initialTextures`: the
handles are valid, no `destroyTexture` call missed a live texture, the guide
view handle is unset, and the two texture handles never both hold the same
texture. -/
def TexturesInv (s : Textures) : Prop :=
  HandlesValid s ∧ NoDoubleDestroy s.gl ∧
  s.mModelTargetGuideViewTextureUnit = NO_TEXTURE ∧
  (s.mAstronautTextureId = NO_TEXTURE ∨ s.mPauseTextureId = NO_TEXTURE ∨
    s.mAstronautTextureId ≠ s.mPauseTextureId)

/-! ## `init`: shader programs and their locations -/

/-- The shader sources that `init` names; their text is in `Shaders.h` and in
the Vuforia sample headers, outside the sources. -/
inductive ShaderSource where
  | VERTEX_SHADER
  | FRAGMENT_SHADER
  | VERTEX_SHADER_PAUSE
  | FRAGMENT_SHADER_PAUSE
  | textureVertexShaderSrc
  | textureFragmentShaderSrc
  | uniformColorVertexShaderSrc
  | uniformColorFragmentShaderSrc
  | textureColorVertexShaderSrc
  | textureColorFragmentShaderSrc
  | vertexColorVertexShaderSrc
  | vertexColorFragmentShaderSrc
  deriving DecidableEq, Repr

/-- The OpenGL ES side of `init`: the program id that
`GLESUtils::createProgramFromBuffer` returns for a pair of sources, and the
answers of `glGetAttribLocation` and `glGetUniformLocation` for a program and a
name. -/
structure GLDriver where
  createProgramFromBuffer : ShaderSource → ShaderSource → Nat
  glGetAttribLocation : Nat → String → Int
  glGetUniformLocation : Nat → String → Int

/-- The members of `GLESRenderer` that `init` assigns. -/
structure Renderer where
  _vProgram : Nat
  _vaPosition : Int
  _vaTexCoordLoc : Int
  _vuProjectionMatrixLoc : Int
  _vuSamplerOES : Int
  _pProgram : Nat
  _paPosition : Int
  _paTexCoordLoc : Int
  _puProjectionMatrixLoc : Int
  _puSampler2D : Int
  mVbShaderProgramID : Nat
  mVbVertexPositionHandle : Int
  mVbTextureCoordHandle : Int
  mVbMvpMatrixHandle : Int
  mVbTexSampler2DHandle : Int
  mUniformColorShaderProgramID : Nat
  mUniformColorVertexPositionHandle : Int
  mUniformColorMvpMatrixHandle : Int
  mUniformColorColorHandle : Int
  mTextureUniformColorShaderProgramID : Nat
  mTextureUniformColorVertexPositionHandle : Int
  mTextureUniformColorTextureCoordHandle : Int
  mTextureUniformColorMvpMatrixHandle : Int
  mTextureUniformColorTexSampler2DHandle : Int
  mTextureUniformColorColorHandle : Int
  mVertexColorShaderProgramID : Nat
  mVertexColorVertexPositionHandle : Int
  mVertexColorColorHandle : Int
  mVertexColorMvpMatrixHandle : Int
  mModelTargetGuideViewTextureUnit : Nat
  mAstronautVertexCount : Int
  mAstronautVertices : List GLfloat
  mAstronautTexCoords : List GLfloat
  mAstronautTextureId : Nat

/-- The first part of `GLESRenderer::init`, up to
`mModelTargetGuideViewTextureUnit = -1`: the six programs are created and the
locations are queried, statement by statement. -/
def initPrograms (gl : GLDriver) (r : Renderer) : Renderer :=
  -- Setup for Video PlayBack rendering
  let _vProgram := gl.createProgramFromBuffer .VERTEX_SHADER .FRAGMENT_SHADER
  let _vaPosition := gl.glGetAttribLocation _vProgram "a_Position"
  let _vaTexCoordLoc := gl.glGetAttribLocation _vProgram "a_TexCoord"
  let _vuProjectionMatrixLoc := gl.glGetUniformLocation _vProgram "u_ProjectionMatrix"
  let _vuSamplerOES := gl.glGetUniformLocation _vProgram "u_SamplerOES"
  -- Setup for Pause.png rendering
  let _pProgram := gl.createProgramFromBuffer .VERTEX_SHADER_PAUSE .FRAGMENT_SHADER_PAUSE
  let _paPosition := gl.glGetAttribLocation _vProgram "a_Position"
  let _paTexCoordLoc := gl.glGetAttribLocation _vProgram "a_TexCoord"
  let _puProjectionMatrixLoc := gl.glGetUniformLocation _vProgram "u_ProjectionMatrix"
  let _puSampler2D := gl.glGetUniformLocation _vProgram "u_Sampler2D"
  -- Setup for Video Background rendering
  let mVbShaderProgramID :=
    gl.createProgramFromBuffer .textureVertexShaderSrc .textureFragmentShaderSrc
  let mVbVertexPositionHandle := gl.glGetAttribLocation mVbShaderProgramID "vertexPosition"
  let mVbTextureCoordHandle := gl.glGetAttribLocation mVbShaderProgramID "vertexTextureCoord"
  let mVbMvpMatrixHandle := gl.glGetUniformLocation mVbShaderProgramID "modelViewProjectionMatrix"
  let mVbTexSampler2DHandle := gl.glGetUniformLocation mVbShaderProgramID "texSampler2D"
  -- Setup for augmentation rendering
  let mUniformColorShaderProgramID :=
    gl.createProgramFromBuffer .uniformColorVertexShaderSrc .uniformColorFragmentShaderSrc
  let mUniformColorVertexPositionHandle :=
    gl.glGetAttribLocation mUniformColorShaderProgramID "vertexPosition"
  let mUniformColorMvpMatrixHandle :=
    gl.glGetUniformLocation mUniformColorShaderProgramID "modelViewProjectionMatrix"
  let mUniformColorColorHandle :=
    gl.glGetUniformLocation mUniformColorShaderProgramID "uniformColor"
  -- Setup for guide view rendering
  let mTextureUniformColorShaderProgramID :=
    gl.createProgramFromBuffer .textureColorVertexShaderSrc .textureColorFragmentShaderSrc
  let mTextureUniformColorVertexPositionHandle :=
    gl.glGetAttribLocation mTextureUniformColorShaderProgramID "vertexPosition"
  let mTextureUniformColorTextureCoordHandle :=
    gl.glGetAttribLocation mTextureUniformColorShaderProgramID "vertexTextureCoord"
  let mTextureUniformColorMvpMatrixHandle :=
    gl.glGetUniformLocation mTextureUniformColorShaderProgramID "modelViewProjectionMatrix"
  let mTextureUniformColorTexSampler2DHandle :=
    gl.glGetUniformLocation mTextureUniformColorShaderProgramID "texSampler2D"
  let mTextureUniformColorColorHandle :=
    gl.glGetUniformLocation mTextureUniformColorShaderProgramID "uniformColor"
  -- Setup for axis rendering
  let mVertexColorShaderProgramID :=
    gl.createProgramFromBuffer .vertexColorVertexShaderSrc .vertexColorFragmentShaderSrc
  let mVertexColorVertexPositionHandle :=
    gl.glGetAttribLocation mVertexColorShaderProgramID "vertexPosition"
  let mVertexColorColorHandle := gl.glGetAttribLocation mVertexColorShaderProgramID "vertexColor"
  let mVertexColorMvpMatrixHandle :=
    gl.glGetUniformLocation mVertexColorShaderProgramID "modelViewProjectionMatrix"
  { r with
    _vProgram, _vaPosition, _vaTexCoordLoc, _vuProjectionMatrixLoc, _vuSamplerOES,
    _pProgram, _paPosition, _paTexCoordLoc, _puProjectionMatrixLoc, _puSampler2D,
    mVbShaderProgramID, mVbVertexPositionHandle, mVbTextureCoordHandle, mVbMvpMatrixHandle,
    mVbTexSampler2DHandle,
    mUniformColorShaderProgramID, mUniformColorVertexPositionHandle,
    mUniformColorMvpMatrixHandle, mUniformColorColorHandle,
    mTextureUniformColorShaderProgramID, mTextureUniformColorVertexPositionHandle,
    mTextureUniformColorTextureCoordHandle, mTextureUniformColorMvpMatrixHandle,
    mTextureUniformColorTexSampler2DHandle, mTextureUniformColorColorHandle,
    mVertexColorShaderProgramID, mVertexColorVertexPositionHandle, mVertexColorColorHandle,
    mVertexColorMvpMatrixHandle,
    mModelTargetGuideViewTextureUnit := NO_TEXTURE }

/-- `GLESRenderer::init`.  `opened` and `buf` are the inputs of `readAsset` for
`ImageTargets/Astronaut.obj`, `LoadObj` is `tinyobj::LoadObj` on the bytes
read.  Returns the `bool` and the members of the renderer afterwards. -/
def init (gl : GLDriver) (BUFSIZ : Nat) (opened : Option AAsset) (buf : List Byte)
    (LoadObj : List Byte → LoadObjResult) (r : Renderer) : Option (Bool × Renderer) :=
  let r1 := initPrograms gl r
  let read := readAsset BUFSIZ opened buf []
  if !read.1 then
    some (false, r1)
  else
    match loadObjModel (LoadObj read.2)
        ⟨r1.mAstronautVertexCount, r1.mAstronautVertices, r1.mAstronautTexCoords⟩ with
    | none => none
    | some (loaded, m) =>
      let r2 : Renderer :=
        { r1 with mAstronautVertexCount := m.numVertices, mAstronautVertices := m.vertices,
                  mAstronautTexCoords := m.texCoords }
      if !loaded then
        some (false, r2)
      else
        some (true, { r2 with mAstronautTextureId := NO_TEXTURE })

/-- A driver that numbers the programs in the order of their creation.  The
video program (1) has the attributes and uniforms that `init` asks it for; the
pause program (2) has `a_TexCoord` at 0, `a_Position` at 1, and the uniforms
`u_ProjectionMatrix` and `u_Sampler2D`.  An unknown name gets -1. -/
def sampleDriver : GLDriver :=
  { createProgramFromBuffer := fun v _ =>
      match v with
      | .VERTEX_SHADER => 1
      | .VERTEX_SHADER_PAUSE => 2
      | .textureVertexShaderSrc => 3
      | .uniformColorVertexShaderSrc => 4
      | .textureColorVertexShaderSrc => 5
      | .vertexColorVertexShaderSrc => 6
      | _ => 0
    glGetAttribLocation := fun p name =>
      if p = 1 then
        (if name = "a_Position" then 0 else if name = "a_TexCoord" then 1 else -1)
      else if p = 2 then
        (if name = "a_TexCoord" then 0 else if name = "a_Position" then 1 else -1)
      else if name = "vertexPosition" then 0 else 1
    glGetUniformLocation := fun p name =>
      if p = 1 then
        (if name = "u_ProjectionMatrix" then 0 else if name = "u_SamplerOES" then 1 else -1)
      else if p = 2 then
        (if name = "u_ProjectionMatrix" then 0 else if name = "u_Sampler2D" then 1 else -1)
      else if name = "modelViewProjectionMatrix" then 0 else 1 }

/-- Members of a renderer that has not been set up. -/
def blankRenderer : Renderer :=
  { _vProgram := 0, _vaPosition := 0, _vaTexCoordLoc := 0, _vuProjectionMatrixLoc := 0,
    _vuSamplerOES := 0, _pProgram := 0, _paPosition := 0, _paTexCoordLoc := 0,
    _puProjectionMatrixLoc := 0, _puSampler2D := 0, mVbShaderProgramID := 0,
    mVbVertexPositionHandle := 0, mVbTextureCoordHandle := 0, mVbMvpMatrixHandle := 0,
    mVbTexSampler2DHandle := 0, mUniformColorShaderProgramID := 0,
    mUniformColorVertexPositionHandle := 0, mUniformColorMvpMatrixHandle := 0,
    mUniformColorColorHandle := 0, mTextureUniformColorShaderProgramID := 0,
    mTextureUniformColorVertexPositionHandle := 0, mTextureUniformColorTextureCoordHandle := 0,
    mTextureUniformColorMvpMatrixHandle := 0, mTextureUniformColorTexSampler2DHandle := 0,
    mTextureUniformColorColorHandle := 0, mVertexColorShaderProgramID := 0,
    mVertexColorVertexPositionHandle := 0, mVertexColorColorHandle := 0,
    mVertexColorMvpMatrixHandle := 0, mModelTargetGuideViewTextureUnit := 0,
    mAstronautVertexCount := 0, mAstronautVertices := [], mAstronautTexCoords := [],
    mAstronautTextureId := 0 }

/-! ## Proofs about `loadObjModel` -/

theorem drop_take_three (xs : List GLfloat) (n : Nat) (h : n + 2 < xs.length) :
    (xs.drop n).take 3 = [xs[n], xs[n + 1], xs[n + 2]] := by
  induction xs generalizing n with
  | nil => simp at h
  | cons a t ih =>
    cases n with
    | zero =>
      match t, h with
      | b :: c :: u, _ => simp
    | succ m =>
      have hm : m + 2 < t.length := by simp at h; omega
      simpa using ih m hm

theorem drop_take_two (xs : List GLfloat) (n : Nat) (h : n + 1 < xs.length) :
    (xs.drop n).take 2 = [xs[n], xs[n + 1]] := by
  induction xs generalizing n with
  | nil => simp at h
  | cons a t ih =>
    cases n with
    | zero =>
      match t, h with
      | b :: u, _ => simp
    | succ m =>
      have hm : m + 1 < t.length := by simp at h; omega
      simpa using ih m hm

theorem readAt_eq (xs : List GLfloat) (i : Int) (j : Nat) (h0 : 0 ≤ i)
    (hlim : i + j < INT_LIMIT) (hlen : i.toNat + j < xs.length) :
    readAt xs (i + j) = some (xs[i.toNat + j]) := by
  have h1 : (i + (j : Int)).toNat = i.toNat + j := by omega
  have h2 : 0 ≤ i + (j : Int) := by omega
  simp [readAt, h1, h2, hlim, hlen]

theorem emitVertex_eq (attrib : attrib_t) (indices : List index_t) (pos : Nat)
    (out : ModelData) (idx : index_t) (hidx : indices[pos]? = some idx)
    (hin : IndexInRange attrib idx) :
    emitVertex attrib indices pos out =
      some ⟨out.numVertices, out.vertices ++ vertexOf attrib idx,
        out.texCoords ++ texCoordOf attrib idx⟩ := by
  obtain ⟨h0, hlim, hlen, htex⟩ := hin
  have hlen2 : (3 * idx.vertex_index).toNat + 2 < attrib.vertices.length := by omega
  have hx := readAt_eq attrib.vertices (3 * idx.vertex_index) 0 (by omega)
    (by simp only [INT_LIMIT] at *; omega) (by omega)
  have hy := readAt_eq attrib.vertices (3 * idx.vertex_index) 1 (by omega)
    (by simp only [INT_LIMIT] at *; omega) (by omega)
  have hz := readAt_eq attrib.vertices (3 * idx.vertex_index) 2 (by omega)
    (by simp only [INT_LIMIT] at *; omega) (by omega)
  simp only [Nat.cast_zero, Nat.cast_one, Nat.cast_ofNat, Nat.add_zero, add_zero] at hx hy hz
  have hv : vertexOf attrib idx = [attrib.vertices[(3 * idx.vertex_index).toNat],
      attrib.vertices[(3 * idx.vertex_index).toNat + 1],
      attrib.vertices[(3 * idx.vertex_index).toNat + 2]] :=
    drop_take_three attrib.vertices _ hlen2
  by_cases ht : idx.texcoord_index < 0
  · simp [emitVertex, hidx, hx, hy, hz, ht, hv, texCoordOf]
  · obtain ⟨htlim, htlen⟩ := htex.resolve_left ht
    have htlen2 : (2 * idx.texcoord_index).toNat + 1 < attrib.texcoords.length := by omega
    have hs := readAt_eq attrib.texcoords (2 * idx.texcoord_index) 0 (by omega)
      (by simp only [INT_LIMIT] at *; omega) (by omega)
    have ht1 := readAt_eq attrib.texcoords (2 * idx.texcoord_index) 1 (by omega)
      (by simp only [INT_LIMIT] at *; omega) (by omega)
    simp only [Nat.cast_zero, Nat.cast_one, Nat.add_zero, add_zero] at hs ht1
    have hp : texCoordOf attrib idx = [attrib.texcoords[(2 * idx.texcoord_index).toNat],
        attrib.texcoords[(2 * idx.texcoord_index).toNat + 1]] := by
      simp only [texCoordOf, if_neg ht]
      exact drop_take_two attrib.texcoords _ htlen2
    simp [emitVertex, hidx, hx, hy, hz, ht, hv, hs, ht1, hp]

theorem vertexLoop_eq (attrib : attrib_t) (indices : List index_t) (index_offset : Nat)
    (hall : ∀ idx ∈ indices, IndexInRange attrib idx) :
    ∀ (n v : Nat) (out : ModelData), index_offset + v + n ≤ indices.length →
      vertexLoop attrib indices index_offset n v out =
        some ⟨out.numVertices,
          out.vertices ++ ((indices.drop (index_offset + v)).take n).flatMap (vertexOf attrib),
          out.texCoords ++ ((indices.drop (index_offset + v)).take n).flatMap (texCoordOf attrib)⟩ := by
  intro n
  induction n with
  | zero => intro v out _; simp [vertexLoop]
  | succ n ih =>
    intro v out hle
    have hlt : index_offset + v < indices.length := by omega
    have hget : indices[index_offset + v]? = some indices[index_offset + v] :=
      List.getElem?_eq_getElem hlt
    have hin := hall _ (List.getElem_mem hlt)
    have hdrop : indices.drop (index_offset + v) =
        indices[index_offset + v] :: indices.drop (index_offset + v + 1) :=
      List.drop_eq_getElem_cons hlt
    rw [vertexLoop, emitVertex_eq attrib indices _ out _ hget hin]
    simp only
    rw [ih (v + 1) _ (by omega), hdrop]
    simp [List.flatMap_cons, List.append_assoc, Nat.add_assoc]

theorem addInt_eq (a : Int) (fv : Nat) (h0 : 0 ≤ a) (h : a + (fv : Int) < INT_LIMIT) :
    addInt a fv = some (a + (fv : Int)) := by
  have h2 : -INT_LIMIT ≤ a + (fv : Int) := by simp only [INT_LIMIT] at *; omega
  simp [addInt, h, h2]

theorem faceLoop_eq (attrib : attrib_t) (indices : List index_t)
    (hall : ∀ idx ∈ indices, IndexInRange attrib idx) :
    ∀ (faces : List Nat) (index_offset : Nat) (out : ModelData),
      index_offset + faces.sum ≤ indices.length → 0 ≤ out.numVertices →
      out.numVertices + (faces.sum : Int) < INT_LIMIT →
      faceLoop attrib indices faces index_offset out =
        some ⟨out.numVertices + (faces.sum : Int),
          out.vertices ++ ((indices.drop index_offset).take faces.sum).flatMap (vertexOf attrib),
          out.texCoords ++ ((indices.drop index_offset).take faces.sum).flatMap (texCoordOf attrib)⟩ := by
  intro faces
  induction faces with
  | nil => intro off out _ _ _; simp [faceLoop]
  | cons fv rest ih =>
    intro off out hle h0 hlim
    simp only [List.sum_cons, Nat.cast_add] at hle hlim
    have hadd : addInt out.numVertices fv = some (out.numVertices + (fv : Int)) :=
      addInt_eq _ _ h0 (by omega)
    rw [faceLoop, hadd]
    simp only
    rw [vertexLoop_eq attrib indices off hall fv 0 _ (by simp; omega)]
    simp only
    rw [ih (off + fv) _ (by omega) (by simp only; omega) (by simp only; omega)]
    simp only [List.sum_cons, Nat.cast_add, Nat.add_zero, List.take_add, List.drop_drop,
      List.flatMap_append, List.append_assoc, Int.add_assoc]

theorem shapeLoop_eq (attrib : attrib_t) :
    ∀ (shapes : List shape_t) (out : ModelData),
      (∀ s ∈ shapes, s.mesh.indices.length = s.mesh.num_face_vertices.sum) →
      (∀ idx ∈ allIndices shapes, IndexInRange attrib idx) →
      0 ≤ out.numVertices →
      out.numVertices + (totalFaceVertices shapes : Int) < INT_LIMIT →
      shapeLoop attrib shapes out =
        some ⟨out.numVertices + (totalFaceVertices shapes : Int),
          out.vertices ++ (allIndices shapes).flatMap (vertexOf attrib),
          out.texCoords ++ (allIndices shapes).flatMap (texCoordOf attrib)⟩ := by
  intro shapes
  induction shapes with
  | nil => intro out _ _ _ _; simp [shapeLoop, allIndices, totalFaceVertices]
  | cons s rest ih =>
    intro out hlen hall h0 hlim
    have hs := hlen s (List.mem_cons_self _ _)
    have hall1 : ∀ idx ∈ s.mesh.indices, IndexInRange attrib idx := by
      intro idx hmem
      exact hall idx (by simp [allIndices, List.flatMap_cons]; exact Or.inl hmem)
    have hall2 : ∀ idx ∈ allIndices rest, IndexInRange attrib idx := by
      intro idx hmem
      apply hall idx
      simp only [allIndices, List.flatMap_cons, List.mem_append]
      exact Or.inr hmem
    have htot : totalFaceVertices (s :: rest) =
        s.mesh.num_face_vertices.sum + totalFaceVertices rest := by
      simp [totalFaceVertices]
    rw [htot, Nat.cast_add] at hlim
    rw [shapeLoop, faceLoop_eq attrib s.mesh.indices hall1 _ 0 out (by omega) h0 (by omega)]
    simp only
    rw [ih _ (fun t ht => hlen t (List.mem_cons_of_mem _ ht)) hall2 (by simp only; omega)
      (by simp only; omega)]
    have htake : List.take s.mesh.num_face_vertices.sum s.mesh.indices = s.mesh.indices := by
      rw [← hs]; exact List.take_length _
    simp only [htot, List.drop_zero, htake, allIndices, List.flatMap_cons, List.flatMap_append,
      List.append_assoc, Nat.cast_add, Int.add_assoc]

theorem flatMap_getElem? {α β : Type} (f : α → List β) (n : Nat) :
    ∀ (l : List α), (∀ x ∈ l, (f x).length = n) → ∀ (k j : Nat), j < n →
      (l.flatMap f)[n * k + j]? = (l[k]?).bind (fun x => (f x)[j]?) := by
  intro l
  induction l with
  | nil => intro _ k j _; simp
  | cons a t ih =>
    intro hf k j hj
    have ha : (f a).length = n := hf a (List.mem_cons_self _ _)
    cases k with
    | zero =>
      simp only [List.flatMap_cons, Nat.mul_zero, Nat.zero_add]
      rw [List.getElem?_append_left (by omega)]
      simp
    | succ k =>
      have hidx : n * (k + 1) + j = (f a).length + (n * k + j) := by
        rw [ha, Nat.mul_succ]; omega
      simp only [List.flatMap_cons]
      rw [hidx, List.getElem?_append_right (by omega)]
      simp only [Nat.add_sub_cancel_left]
      rw [ih (fun x hx => hf x (List.mem_cons_of_mem _ hx)) k j hj]
      simp

theorem length_flatMap_const {α β : Type} (f : α → List β) (n : Nat) :
    ∀ (l : List α), (∀ x ∈ l, (f x).length = n) → (l.flatMap f).length = n * l.length := by
  intro l
  induction l with
  | nil => intro _; simp
  | cons a t ih =>
    intro hf
    simp only [List.flatMap_cons, List.length_append, List.length_cons]
    rw [ih (fun x hx => hf x (List.mem_cons_of_mem _ hx)), hf a (List.mem_cons_self _ _),
      Nat.mul_succ]
    omega

theorem vertexOf_length (attrib : attrib_t) (idx : index_t) (hin : IndexInRange attrib idx) :
    (vertexOf attrib idx).length = 3 := by
  obtain ⟨h0, _, hlen, _⟩ := hin
  simp only [vertexOf, List.length_take, List.length_drop]
  omega

theorem texCoordOf_length (attrib : attrib_t) (idx : index_t) (hin : IndexInRange attrib idx) :
    (texCoordOf attrib idx).length = 2 := by
  obtain ⟨_, _, _, htex⟩ := hin
  by_cases ht : idx.texcoord_index < 0
  · simp [texCoordOf, ht]
  · obtain ⟨_, htlen⟩ := htex.resolve_left ht
    simp only [texCoordOf, if_neg ht, List.length_take, List.length_drop]
    omega

theorem vertexOf_getElem? (attrib : attrib_t) (idx : index_t) (j : Nat) (hj : j < 3) :
    (vertexOf attrib idx)[j]? = attrib.vertices[(3 * idx.vertex_index).toNat + j]? := by
  simp only [vertexOf]
  rw [List.getElem?_take_of_lt hj, List.getElem?_drop]

theorem allIndices_length (shapes : List shape_t)
    (hlen : ∀ s ∈ shapes, s.mesh.indices.length = s.mesh.num_face_vertices.sum) :
    (allIndices shapes).length = totalFaceVertices shapes := by
  induction shapes with
  | nil => simp [allIndices, totalFaceVertices]
  | cons s rest ih =>
    have h1 := hlen s (List.mem_cons_self _ _)
    have h2 := ih (fun t ht => hlen t (List.mem_cons_of_mem _ ht))
    simp only [allIndices, totalFaceVertices, List.flatMap_cons, List.length_append,
      List.map_cons, List.sum_cons] at *
    omega

/-- Closed form of a successful `loadObjModel`. -/
theorem loadObjModel_closed_form (r : LoadObjResult) (entry : ModelData)
    (hret : r.ret = true) (herr : r.err = "") (hin : ParsedInRange r.attrib r.shapes) :
    loadObjModel r entry =
      some (true, ⟨(totalFaceVertices r.shapes : Int),
        (allIndices r.shapes).flatMap (vertexOf r.attrib),
        (allIndices r.shapes).flatMap (texCoordOf r.attrib)⟩) := by
  obtain ⟨hlen, hall, hlim⟩ := hin
  have hloop := shapeLoop_eq r.attrib r.shapes ⟨0, [], []⟩ hlen hall (by simp) (by simpa using hlim)
  have hempty : ("" : String).isEmpty = true := by decide
  simp only [loadObjModel, hret, herr, hempty]
  simp [hloop]

theorem isEmpty_iff (s : String) : s.isEmpty = true ↔ s = "" := by
  constructor
  · intro h
    simp only [String.isEmpty, beq_iff_eq] at h
    have h1 : s.utf8ByteSize = 0 := by
      have := congrArg String.Pos.byteIdx h
      simpa [String.endPos] using this
    cases s with
    | mk data =>
      cases data with
      | nil => rfl
      | cons c cs =>
        exfalso
        simp only [String.utf8ByteSize, String.utf8ByteSize.go] at h1
        have := Char.utf8Size_pos c
        omega
  · intro h; subst h; decide

theorem texCoordOf_neg (attrib : attrib_t) (idx : index_t) (h : idx.texcoord_index < 0) :
    texCoordOf attrib idx = [0, 0] := by
  simp [texCoordOf, h]

theorem texCoordOf_getElem? (attrib : attrib_t) (idx : index_t) (h : ¬ idx.texcoord_index < 0)
    (j : Nat) (hj : j < 2) :
    (texCoordOf attrib idx)[j]? = attrib.texcoords[(2 * idx.texcoord_index).toNat + j]? := by
  simp only [texCoordOf, if_neg h]
  rw [List.getElem?_take_of_lt hj, List.getElem?_drop]

/-! ## Claims on `loadObjModel` -/

/-- C1: when `tinyobj::LoadObj` succeeded with an empty error string and the
parsed indices are in range, `loadObjModel` returns `true`, `numVertices` is the
sum of `num_face_vertices` over all faces of all shapes, `vertices` holds
`3 * numVertices` floats and `texCoords` holds `2 * numVertices` floats, and the
`k`-th emitted vertex is `attrib.vertices[3*i .. 3*i+2]` where `i` is the
`vertex_index` of the `k`-th entry of the concatenated `mesh.indices`. -/
theorem loadObjModel_flattens (r : LoadObjResult) (entry : ModelData)
    (hret : r.ret = true) (herr : r.err = "") (hin : ParsedInRange r.attrib r.shapes) :
    ∃ out, loadObjModel r entry = some (true, out) ∧
      out.numVertices = (totalFaceVertices r.shapes : Int) ∧
      (out.vertices.length : Int) = 3 * out.numVertices ∧
      (out.texCoords.length : Int) = 2 * out.numVertices ∧
      (allIndices r.shapes).length = totalFaceVertices r.shapes ∧
      ∀ (k : Nat) (idx : index_t), (allIndices r.shapes)[k]? = some idx → ∀ (j : Nat), j < 3 →
        ∃ x, out.vertices[3 * k + j]? = some x ∧
          r.attrib.vertices[(3 * idx.vertex_index + (j : Int)).toNat]? = some x := by
  refine ⟨_, loadObjModel_closed_form r entry hret herr hin, rfl, ?_, ?_, ?_, ?_⟩
  · obtain ⟨hlen, hall, _⟩ := hin
    simp only
    rw [length_flatMap_const _ 3 _ (fun x hx => vertexOf_length _ _ (hall x hx)),
      allIndices_length _ hlen]
    push_cast; rfl
  · obtain ⟨hlen, hall, _⟩ := hin
    simp only
    rw [length_flatMap_const _ 2 _ (fun x hx => texCoordOf_length _ _ (hall x hx)),
      allIndices_length _ hlen]
    push_cast; rfl
  · exact allIndices_length _ hin.1
  · obtain ⟨hlen, hall, _⟩ := hin
    intro k idx hk j hj
    have hmem : idx ∈ allIndices r.shapes := List.getElem?_mem hk
    have hr := hall idx hmem
    have hlen3 := vertexOf_length r.attrib idx hr
    have hnat : (3 * idx.vertex_index + (j : Int)).toNat = (3 * idx.vertex_index).toNat + j := by
      have := hr.1; omega
    simp only
    rw [flatMap_getElem? (vertexOf r.attrib) 3 _
      (fun x hx => vertexOf_length _ _ (hall x hx)) k j hj, hk, hnat]
    simp only [Option.some_bind]
    rw [← vertexOf_getElem? r.attrib idx j hj]
    have hjl : j < (vertexOf r.attrib idx).length := by omega
    exact ⟨(vertexOf r.attrib idx)[j], List.getElem?_eq_getElem hjl,
      List.getElem?_eq_getElem hjl⟩

/-- Witness for C1 on `sampleObj`. -/
theorem loadObjModel_flattens_witness :
    sampleObj.ret = true ∧ sampleObj.err = "" ∧
    ParsedInRange sampleObj.attrib sampleObj.shapes ∧
    ∃ out, loadObjModel sampleObj sampleEntry = some (true, out) ∧
      out.numVertices = (totalFaceVertices sampleObj.shapes : Int) ∧
      (out.vertices.length : Int) = 3 * out.numVertices ∧
      (out.texCoords.length : Int) = 2 * out.numVertices ∧
      (allIndices sampleObj.shapes).length = totalFaceVertices sampleObj.shapes ∧
      ∀ (k : Nat) (idx : index_t), (allIndices sampleObj.shapes)[k]? = some idx → ∀ (j : Nat), j < 3 →
        ∃ x, out.vertices[3 * k + j]? = some x ∧
          sampleObj.attrib.vertices[(3 * idx.vertex_index + (j : Int)).toNat]? = some x :=
  ⟨rfl, rfl, by decide, loadObjModel_flattens sampleObj sampleEntry rfl rfl (by decide)⟩

/-- C2: for every face vertex processed by a successful `loadObjModel`, the
emitted texture-coordinate pair is `(0, 0)` when its `texcoord_index` is
negative and `(attrib.texcoords[2*t], attrib.texcoords[2*t+1])` otherwise; the
`k`-th pair and the `k`-th vertex triple come from the same index entry. -/
theorem loadObjModel_texCoords (r : LoadObjResult) (entry : ModelData)
    (hret : r.ret = true) (herr : r.err = "") (hin : ParsedInRange r.attrib r.shapes) :
    ∃ out, loadObjModel r entry = some (true, out) ∧
      ∀ (k : Nat) (idx : index_t), (allIndices r.shapes)[k]? = some idx →
        ((idx.texcoord_index < 0 ∧
            out.texCoords[2 * k]? = some 0 ∧ out.texCoords[2 * k + 1]? = some 0) ∨
          (0 ≤ idx.texcoord_index ∧ ∃ s t,
            r.attrib.texcoords[(2 * idx.texcoord_index).toNat]? = some s ∧
            r.attrib.texcoords[(2 * idx.texcoord_index + 1).toNat]? = some t ∧
            out.texCoords[2 * k]? = some s ∧ out.texCoords[2 * k + 1]? = some t)) ∧
        ∀ (j : Nat), j < 3 →
          ∃ x, out.vertices[3 * k + j]? = some x ∧
            r.attrib.vertices[(3 * idx.vertex_index + (j : Int)).toNat]? = some x := by
  refine ⟨_, loadObjModel_closed_form r entry hret herr hin, ?_⟩
  obtain ⟨hlen, hall, _⟩ := hin
  intro k idx hk
  have hr := hall idx (List.getElem?_mem hk)
  have ht0 := flatMap_getElem? (texCoordOf r.attrib) 2 _
    (fun x hx => texCoordOf_length _ _ (hall x hx)) k 0 (by omega)
  have ht1 := flatMap_getElem? (texCoordOf r.attrib) 2 _
    (fun x hx => texCoordOf_length _ _ (hall x hx)) k 1 (by omega)
  rw [hk] at ht0 ht1
  simp only [Option.some_bind, Nat.add_zero] at ht0 ht1
  refine ⟨?_, ?_⟩
  · by_cases ht : idx.texcoord_index < 0
    · left
      refine ⟨ht, ?_, ?_⟩
      · simp only; rw [ht0, texCoordOf_neg _ _ ht]; rfl
      · simp only; rw [ht1, texCoordOf_neg _ _ ht]; rfl
    · right
      have hl := texCoordOf_length r.attrib idx hr
      have h0 : 0 < (texCoordOf r.attrib idx).length := by omega
      have h1 : 1 < (texCoordOf r.attrib idx).length := by omega
      have hn : (2 * idx.texcoord_index + 1).toNat = (2 * idx.texcoord_index).toNat + 1 := by
        omega
      refine ⟨by omega, (texCoordOf r.attrib idx)[0], (texCoordOf r.attrib idx)[1], ?_, ?_, ?_, ?_⟩
      · rw [← Nat.add_zero (2 * idx.texcoord_index).toNat,
          ← texCoordOf_getElem? r.attrib idx ht 0 (by omega)]
        exact List.getElem?_eq_getElem h0
      · rw [hn, ← texCoordOf_getElem? r.attrib idx ht 1 (by omega)]
        exact List.getElem?_eq_getElem h1
      · simp only; rw [ht0]; exact List.getElem?_eq_getElem h0
      · simp only; rw [ht1]; exact List.getElem?_eq_getElem h1
  · intro j hj
    have hnat : (3 * idx.vertex_index + (j : Int)).toNat = (3 * idx.vertex_index).toNat + j := by
      have := hr.1; omega
    have hjl : j < (vertexOf r.attrib idx).length := by
      rw [vertexOf_length r.attrib idx hr]; exact hj
    simp only
    rw [flatMap_getElem? (vertexOf r.attrib) 3 _
      (fun x hx => vertexOf_length _ _ (hall x hx)) k j hj, hk, hnat]
    simp only [Option.some_bind]
    rw [← vertexOf_getElem? r.attrib idx j hj]
    exact ⟨(vertexOf r.attrib idx)[j], List.getElem?_eq_getElem hjl,
      List.getElem?_eq_getElem hjl⟩

/-- Witness for C2 on `sampleObj`, whose second face vertex has no texture
coordinate. -/
theorem loadObjModel_texCoords_witness :
    sampleObj.ret = true ∧ sampleObj.err = "" ∧
    ParsedInRange sampleObj.attrib sampleObj.shapes ∧
    ∃ out, loadObjModel sampleObj sampleEntry = some (true, out) ∧
      ∀ (k : Nat) (idx : index_t), (allIndices sampleObj.shapes)[k]? = some idx →
        ((idx.texcoord_index < 0 ∧
            out.texCoords[2 * k]? = some 0 ∧ out.texCoords[2 * k + 1]? = some 0) ∨
          (0 ≤ idx.texcoord_index ∧ ∃ s t,
            sampleObj.attrib.texcoords[(2 * idx.texcoord_index).toNat]? = some s ∧
            sampleObj.attrib.texcoords[(2 * idx.texcoord_index + 1).toNat]? = some t ∧
            out.texCoords[2 * k]? = some s ∧ out.texCoords[2 * k + 1]? = some t)) ∧
        ∀ (j : Nat), j < 3 →
          ∃ x, out.vertices[3 * k + j]? = some x ∧
            sampleObj.attrib.vertices[(3 * idx.vertex_index + (j : Int)).toNat]? = some x :=
  ⟨rfl, rfl, by decide, loadObjModel_texCoords sampleObj sampleEntry rfl rfl (by decide)⟩

/-- C3: `loadObjModel` returns `false` exactly when `tinyobj::LoadObj` returned
`false` or a non-empty error string, and then leaves `numVertices`, `vertices`
and `texCoords` as they were on entry; the warning string has no influence on
the result; and when the parse did not fail the result does not depend on the
entry values of the three outputs (with in-range indices it is `true` together
with the flattened data). -/
theorem loadObjModel_failure (r : LoadObjResult) (entry : ModelData) :
    ((∃ out, loadObjModel r entry = some (false, out)) ↔ (r.ret = false ∨ r.err ≠ "")) ∧
    ((r.ret = false ∨ r.err ≠ "") → loadObjModel r entry = some (false, entry)) ∧
    (∀ w : String, loadObjModel { r with warn := w } entry = loadObjModel r entry) ∧
    (r.ret = true → r.err = "" →
      ∀ entry2 : ModelData, loadObjModel r entry2 = loadObjModel r entry) ∧
    (r.ret = true → r.err = "" → ParsedInRange r.attrib r.shapes →
      ∃ out, loadObjModel r entry = some (true, out)) := by
  have hcond : (r.ret = false ∨ r.err ≠ "") ↔ (!r.ret || !r.err.isEmpty) = true := by
    have := isEmpty_iff r.err
    cases hr : r.ret <;> cases he : r.err.isEmpty <;> simp_all
  refine ⟨⟨?_, ?_⟩, ?_, ?_, ?_, ?_⟩
  · rintro ⟨out, hout⟩
    by_contra hne
    have hc : ¬ (!r.ret || !r.err.isEmpty) = true := fun h => hne (hcond.mpr h)
    simp only [loadObjModel, if_neg hc] at hout
    cases hs : shapeLoop r.attrib r.shapes ⟨0, [], []⟩ <;> simp [hs] at hout
  · intro h
    exact ⟨entry, by simp only [loadObjModel, if_pos (hcond.mp h)]⟩
  · intro h
    simp only [loadObjModel, if_pos (hcond.mp h)]
  · intro w
    simp only [loadObjModel]
  · intro hret herr entry2
    have hc : ¬ (!r.ret || !r.err.isEmpty) = true := by
      intro h
      rcases hcond.mpr h with h1 | h1
      · rw [hret] at h1; exact Bool.noConfusion h1
      · exact h1 herr
    simp only [loadObjModel, if_neg hc]
  · intro hret herr hin
    exact ⟨_, loadObjModel_closed_form r entry hret herr hin⟩

/-- Witness for C3: a failed parse leaves the entry values in place, and a
successful one gives the same result from two different entry values. -/
theorem loadObjModel_failure_witness :
    (failedObj.ret = false ∨ failedObj.err ≠ "") ∧
    loadObjModel failedObj sampleEntry = some (false, sampleEntry) ∧
    sampleObj.ret = true ∧ sampleObj.err = "" ∧
    ParsedInRange sampleObj.attrib sampleObj.shapes ∧
    (∀ entry2 : ModelData, loadObjModel sampleObj entry2 = loadObjModel sampleObj sampleEntry) ∧
    (∃ out, loadObjModel sampleObj sampleEntry = some (true, out)) :=
  ⟨Or.inl rfl, (loadObjModel_failure failedObj sampleEntry).2.1 (Or.inl rfl),
    rfl, rfl, by decide,
    (loadObjModel_failure sampleObj sampleEntry).2.2.2.1 rfl rfl,
    (loadObjModel_failure sampleObj sampleEntry).2.2.2.2 rfl rfl (by decide)⟩

/-! ## `readAsset` -/

theorem storeChunk_length (c buf : List Byte) (h : c.length ≤ buf.length) :
    (storeChunk c buf).length = buf.length := by
  simp only [storeChunk, List.length_append, List.length_drop]
  omega

/-- Every successful read appends `BUFSIZ` chars to `data`, whatever the
number of bytes the read delivered. -/
theorem readLoop_length (BUFSIZ : Nat) (ending : ReadEnd) :
    ∀ (chunks : List (List Byte)) (buf data : List Byte),
      (∀ c ∈ chunks, 0 < c.length ∧ c.length ≤ BUFSIZ) → buf.length = BUFSIZ →
      (readLoop BUFSIZ ending chunks buf data).1 = ending.nb_read ∧
      (readLoop BUFSIZ ending chunks buf data).2.length =
        data.length + BUFSIZ * chunks.length := by
  intro chunks
  induction chunks with
  | nil => intro buf data _ _; simp [readLoop]
  | cons c rest ih =>
    intro buf data hwf hbuf
    obtain ⟨hpos, hle⟩ := hwf c (List.mem_cons_self _ _)
    have hlen : (storeChunk c buf).length = BUFSIZ := by
      rw [storeChunk_length c buf (by omega), hbuf]
    have hc : ((c.length : Int) > 0) := by omega
    have := ih (storeChunk c buf) (data ++ (storeChunk c buf).take BUFSIZ)
      (fun d hd => hwf d (List.mem_cons_of_mem _ hd)) hlen
    simp only [readLoop, if_pos hc]
    refine ⟨this.1, ?_⟩
    rw [this.2]
    simp only [List.length_append, List.length_take, List.length_cons, hlen, Nat.mul_succ]
    omega

/-- For an asset that opens and whose reads all
succeed, `readAsset` returns `true` and `data` grows by `BUFSIZ` chars for every
read that delivered bytes. -/
theorem readAsset_length (BUFSIZ : Nat) (asset : AAsset) (buf data : List Byte)
    (hwf : asset.WellFormed BUFSIZ) (hbuf : buf.length = BUFSIZ)
    (hend : asset.ending = ReadEnd.eof) :
    (readAsset BUFSIZ (some asset) buf data).1 = true ∧
    (readAsset BUFSIZ (some asset) buf data).2.length =
      data.length + BUFSIZ * asset.chunks.length := by
  have h := readLoop_length BUFSIZ asset.ending asset.chunks buf data hwf hbuf
  have h1 : ¬ (readLoop BUFSIZ asset.ending asset.chunks buf data).1 < 0 := by
    rw [h.1, hend]; decide
  simp only [readAsset, if_neg h1]
  exact ⟨trivial, h.2⟩

set_option maxRecDepth 100000 in
/-- C4 at a one-byte asset with `BUFSIZ = 1024`: the asset delivers the single
byte 118, `readAsset` returns `true`, and `data` receives 1024 chars: the byte
followed by the 1023 chars that the buffer happened to hold. -/
theorem readAsset_one_byte :
    oneByteAsset.WellFormed 1024 ∧ oneByteAsset.content = [118] ∧
    readAsset 1024 (some oneByteAsset) (List.replicate 1024 0) [] =
      (true, 118 :: List.replicate 1023 0) ∧
    (readAsset 1024 (some oneByteAsset) (List.replicate 1024 0) []).2 ≠ oneByteAsset.content := by
  refine ⟨by decide, by decide, ?_, ?_⟩
  · decide
  · decide

/-! ## `renderVideoPlayback` -/

/-- C5: outside full screen, for positive marker and video sizes, the
half-extents satisfy `0 < scaleX ≤ 1/2` and `0 < scaleY ≤ 1/2`, one of them is
`1/2`, `scaleX * markerAspect = scaleY * videoAspect`, and both are `1/2` when
the two aspects agree. -/
theorem quadScale_fit (st : VideoState) (markerW markerH : GLfloat)
    (hfs : st._fullscreenFlg = false) (hmw : 0 < markerW) (hmh : 0 < markerH)
    (hvw : 0 < st._vVideoWidth) (hvh : 0 < st._vVideoHeight) :
    0 < (quadScale st (markerW, markerH)).1 ∧ (quadScale st (markerW, markerH)).1 ≤ 1 / 2 ∧
    0 < (quadScale st (markerW, markerH)).2 ∧ (quadScale st (markerW, markerH)).2 ≤ 1 / 2 ∧
    ((quadScale st (markerW, markerH)).1 = 1 / 2 ∨ (quadScale st (markerW, markerH)).2 = 1 / 2) ∧
    (quadScale st (markerW, markerH)).1 * (markerW / markerH) =
      (quadScale st (markerW, markerH)).2 * (st._vVideoWidth / st._vVideoHeight) ∧
    (markerW / markerH = st._vVideoWidth / st._vVideoHeight →
      (quadScale st (markerW, markerH)).1 = 1 / 2 ∧
      (quadScale st (markerW, markerH)).2 = 1 / 2) := by
  have ha : 0 < markerW / markerH := div_pos hmw hmh
  have hv : 0 < st._vVideoWidth / st._vVideoHeight := div_pos hvw hvh
  have hq : quadScale st (markerW, markerH) =
      if markerW / markerH > st._vVideoWidth / st._vVideoHeight then
        (1 / 2 * ((st._vVideoWidth / st._vVideoHeight) / (markerW / markerH)), 1 / 2)
      else (1 / 2, 1 / 2 * ((markerW / markerH) / (st._vVideoWidth / st._vVideoHeight))) := by
    simp only [quadScale, hfs]
    rfl
  rw [hq]
  generalize markerW / markerH = a at ha ⊢
  generalize st._vVideoWidth / st._vVideoHeight = v at hv ⊢
  by_cases hgt : a > v
  · rw [if_pos hgt]
    have hlt : v / a < 1 := (div_lt_one ha).mpr hgt
    have hpos : 0 < v / a := div_pos hv ha
    refine ⟨?_, ?_, ?_, ?_, ?_, ?_, ?_⟩
    · show 0 < 1 / 2 * (v / a); linarith
    · show 1 / 2 * (v / a) ≤ 1 / 2; linarith
    · show (0 : GLfloat) < 1 / 2; norm_num
    · exact le_refl _
    · exact Or.inr rfl
    · show 1 / 2 * (v / a) * a = 1 / 2 * v
      field_simp; ring
    · intro h; exact absurd h (ne_of_gt hgt)
  · rw [if_neg hgt]
    have hle : a / v ≤ 1 := (div_le_one hv).mpr (not_lt.mp hgt)
    have hpos : 0 < a / v := div_pos ha hv
    refine ⟨?_, ?_, ?_, ?_, ?_, ?_, ?_⟩
    · show (0 : GLfloat) < 1 / 2; norm_num
    · exact le_refl _
    · show 0 < 1 / 2 * (a / v); linarith
    · show 1 / 2 * (a / v) ≤ 1 / 2; linarith
    · exact Or.inl rfl
    · show 1 / 2 * a = 1 / 2 * (a / v) * v
      field_simp; ring
    · intro h
      subst h
      refine ⟨rfl, ?_⟩
      rw [div_self (ne_of_gt hv)]
      norm_num

/-- Witness for C5: a 16:9 video on a square marker. -/
theorem quadScale_fit_witness :
    sampleVideo._fullscreenFlg = false ∧ (0 : GLfloat) < 1 ∧
    0 < sampleVideo._vVideoWidth ∧ 0 < sampleVideo._vVideoHeight ∧
    0 < (quadScale sampleVideo (1, 1)).1 ∧ (quadScale sampleVideo (1, 1)).1 ≤ 1 / 2 ∧
    0 < (quadScale sampleVideo (1, 1)).2 ∧ (quadScale sampleVideo (1, 1)).2 ≤ 1 / 2 ∧
    ((quadScale sampleVideo (1, 1)).1 = 1 / 2 ∨ (quadScale sampleVideo (1, 1)).2 = 1 / 2) ∧
    (quadScale sampleVideo (1, 1)).1 * (1 / 1) =
      (quadScale sampleVideo (1, 1)).2 * (sampleVideo._vVideoWidth / sampleVideo._vVideoHeight) ∧
    ((1 : GLfloat) / 1 = sampleVideo._vVideoWidth / sampleVideo._vVideoHeight →
      (quadScale sampleVideo (1, 1)).1 = 1 / 2 ∧ (quadScale sampleVideo (1, 1)).2 = 1 / 2) :=
  ⟨rfl, by norm_num, by norm_num [sampleVideo], by norm_num [sampleVideo],
    quadScale_fit sampleVideo 1 1 rfl (by norm_num) (by norm_num)
      (by norm_num [sampleVideo]) (by norm_num [sampleVideo])⟩

/-- C7: the four points stored in `_ndcQuadPoints[targetName]` are, in this
order, the images of the corners lower-left, lower-right, upper-right and
upper-left of the quad under `projectionMatrix * scaledModelViewMatrix`
followed by the division by `w`; for a quad that is not degenerate,
consecutive visited corners, taken cyclically, are the ends of one edge. -/
theorem ndcQuadPoints_order (st : VideoState) (projectionMatrix scaledModelViewMatrix : VuMatrix44F)
    (markerSize : GLfloat × GLfloat) :
    ndcQuadPoints st projectionMatrix scaledModelViewMatrix markerSize =
      [project (vuMatrix44FMultiplyMatrix projectionMatrix scaledModelViewMatrix)
          (-(quadScale st markerSize).1) (-(quadScale st markerSize).2),
        project (vuMatrix44FMultiplyMatrix projectionMatrix scaledModelViewMatrix)
          (quadScale st markerSize).1 (-(quadScale st markerSize).2),
        project (vuMatrix44FMultiplyMatrix projectionMatrix scaledModelViewMatrix)
          (quadScale st markerSize).1 (quadScale st markerSize).2,
        project (vuMatrix44FMultiplyMatrix projectionMatrix scaledModelViewMatrix)
          (-(quadScale st markerSize).1) (quadScale st markerSize).2] ∧
    visitedCorners (quadScale st markerSize).1 (quadScale st markerSize).2 =
      [(-(quadScale st markerSize).1, -(quadScale st markerSize).2),
        ((quadScale st markerSize).1, -(quadScale st markerSize).2),
        ((quadScale st markerSize).1, (quadScale st markerSize).2),
        (-(quadScale st markerSize).1, (quadScale st markerSize).2)] ∧
    ((quadScale st markerSize).1 ≠ 0 → (quadScale st markerSize).2 ≠ 0 →
      ∀ (i : Nat), i < 4 →
        OnOneEdge
          ((visitedCorners (quadScale st markerSize).1 (quadScale st markerSize).2).getD i (0, 0))
          ((visitedCorners (quadScale st markerSize).1 (quadScale st markerSize).2).getD
            ((i + 1) % 4) (0, 0))) := by
  have hdef : ndcQuadPoints st projectionMatrix scaledModelViewMatrix markerSize =
      [0, 1, 3, 2].map (fun lpct =>
        ndcPoint (vuMatrix44FMultiplyMatrix projectionMatrix scaledModelViewMatrix)
          (quadVertices (quadScale st markerSize).1 (quadScale st markerSize).2) lpct) := rfl
  rw [hdef]
  generalize quadScale st markerSize = s
  generalize vuMatrix44FMultiplyMatrix projectionMatrix scaledModelViewMatrix = m
  refine ⟨?_, ?_, ?_⟩
  · simp [ndcPoint, project, quadVertices]
  · simp [visitedCorners, quadVertices]
  · intro hx hy i hi
    have hnx : -s.1 ≠ s.1 := by
      intro h; apply hx; linarith
    have hny : -s.2 ≠ s.2 := by
      intro h; apply hy; linarith
    interval_cases i <;> simp [visitedCorners, quadVertices, OnOneEdge, hnx, hny, Ne.symm hnx, Ne.symm hny]

theorem quadScale_sample : quadScale sampleVideo (1, 1) = (1 / 2, 9 / 32) := by
  norm_num [quadScale, sampleVideo]

theorem identity_mul_identity :
    vuMatrix44FMultiplyMatrix identityMatrix identityMatrix = identityMatrix := by
  simp [vuMatrix44FMultiplyMatrix, identityMatrix, VuMatrix44F.entry, List.range, List.range.loop]

/-- Witness for C7: a 16:9 video on a square marker, identity matrices. -/
theorem ndcQuadPoints_order_witness :
    (quadScale sampleVideo (1, 1)).1 ≠ 0 ∧ (quadScale sampleVideo (1, 1)).2 ≠ 0 ∧
    ndcQuadPoints sampleVideo identityMatrix identityMatrix (1, 1) =
      [⟨-(1 / 2), -(9 / 32)⟩, ⟨1 / 2, -(9 / 32)⟩, ⟨1 / 2, 9 / 32⟩, ⟨-(1 / 2), 9 / 32⟩] ∧
    ∀ (i : Nat), i < 4 →
      OnOneEdge
        ((visitedCorners (quadScale sampleVideo (1, 1)).1 (quadScale sampleVideo (1, 1)).2).getD
          i (0, 0))
        ((visitedCorners (quadScale sampleVideo (1, 1)).1 (quadScale sampleVideo (1, 1)).2).getD
          ((i + 1) % 4) (0, 0)) := by
  have h1 : (quadScale sampleVideo (1, 1)).1 ≠ 0 := by rw [quadScale_sample]; norm_num
  have h2 : (quadScale sampleVideo (1, 1)).2 ≠ 0 := by rw [quadScale_sample]; norm_num
  refine ⟨h1, h2, ?_,
    (ndcQuadPoints_order sampleVideo identityMatrix identityMatrix (1, 1)).2.2 h1 h2⟩
  rw [(ndcQuadPoints_order sampleVideo identityMatrix identityMatrix (1, 1)).1,
    quadScale_sample, identity_mul_identity]
  norm_num [project, mulVec, identityMatrix, VuMatrix44F.entry]

/-! ## Texture handles -/

theorem mem_destroyTexture (gl : GLTextures) (h x : Nat) :
    x ∈ (GLESUtils.destroyTexture gl h).live ↔ x ∈ gl.live ∧ x ≠ h := by
  simp [GLESUtils.destroyTexture]

theorem destroyTexture_calls (gl : GLTextures) (h : Nat) (hl : h ∈ gl.live) :
    (GLESUtils.destroyTexture gl h).destroyCalls = gl.destroyCalls ++ [(h, true)] := by
  simp [GLESUtils.destroyTexture, hl]

theorem noDouble_append (gl : GLTextures) (h : Nat) (calls : List (Nat × Bool))
    (hc : calls = gl.destroyCalls ++ [(h, true)]) (hn : NoDoubleDestroy gl) :
    ∀ c ∈ calls, c.2 = true := by
  intro c hmem
  rw [hc, List.mem_append] at hmem
  rcases hmem with hmem | hmem
  · exact hn c hmem
  · simp only [List.mem_singleton] at hmem
    rw [hmem]

theorem releaseHeld_calls (gl : GLTextures) (h : Nat) (hv : HandleValid gl h) :
    (releaseHeld gl h).1.destroyCalls =
      gl.destroyCalls ++ (if h ≠ NO_TEXTURE then [(h, true)] else []) := by
  by_cases hne : h ≠ NO_TEXTURE
  · have hl : h ∈ gl.live := hv.resolve_left hne
    simp only [releaseHeld, if_pos hne]
    exact destroyTexture_calls gl h hl
  · simp only [releaseHeld, if_neg hne, List.append_nil]

theorem releaseHeld_noDouble (gl : GLTextures) (h : Nat) (hv : HandleValid gl h)
    (hn : NoDoubleDestroy gl) : NoDoubleDestroy (releaseHeld gl h).1 := by
  by_cases hne : h ≠ NO_TEXTURE
  · have hl : h ∈ gl.live := hv.resolve_left hne
    simp only [releaseHeld, if_pos hne]
    exact noDouble_append gl h _ (destroyTexture_calls gl h hl) hn
  · simp only [releaseHeld, if_neg hne]
    exact hn

theorem mem_releaseHeld (gl : GLTextures) (h x : Nat) :
    x ∈ (releaseHeld gl h).1.live ↔ x ∈ gl.live ∧ (h ≠ NO_TEXTURE → x ≠ h) := by
  by_cases hne : h ≠ NO_TEXTURE
  · simp only [releaseHeld, if_pos hne, mem_destroyTexture]
    constructor
    · rintro ⟨h1, h2⟩; exact ⟨h1, fun _ => h2⟩
    · rintro ⟨h1, h2⟩; exact ⟨h1, h2 hne⟩
  · simp only [releaseHeld, if_neg hne]
    constructor
    · intro h1; exact ⟨h1, fun h2 => absurd h2 hne⟩
    · rintro ⟨h1, _⟩; exact h1

theorem createTexture_live (gl : GLTextures) (h newId x : Nat) :
    x ∈ (createTexture gl h newId).1.live ↔
      x = newId ∨ (x ∈ gl.live ∧ (h ≠ NO_TEXTURE → x ≠ h)) := by
  simp only [createTexture, GLESUtils.createTexture, List.mem_cons, mem_releaseHeld]

theorem createTexture_calls (gl : GLTextures) (h newId : Nat) :
    (createTexture gl h newId).1.destroyCalls = (releaseHeld gl h).1.destroyCalls := rfl

theorem createTexture_handle (gl : GLTextures) (h newId : Nat) :
    (createTexture gl h newId).2 = newId := rfl

theorem inv_initial (live0 : List Nat) : TexturesInv (initialTextures live0) := by
  refine ⟨⟨Or.inl rfl, Or.inl rfl, Or.inl rfl⟩, ?_, rfl, Or.inl rfl⟩
  intro c hc
  simp [initialTextures] at hc

theorem inv_setAstronautTexture (s : Textures) (newId : Nat) (hinv : TexturesInv s)
    (hfresh : newId ∉ (releaseHeld s.gl s.mAstronautTextureId).1.live) :
    TexturesInv (setAstronautTexture s newId) := by
  obtain ⟨⟨hu, ha, hp⟩, hn, hunit, hdist⟩ := hinv
  rw [mem_releaseHeld] at hfresh
  refine ⟨⟨?_, ?_, ?_⟩, ?_, hunit, ?_⟩
  · exact Or.inl hunit
  · right
    show newId ∈ (createTexture s.gl s.mAstronautTextureId newId).1.live
    rw [createTexture_live]; exact Or.inl rfl
  · rcases hp with hp | hp
    · exact Or.inl hp
    · right
      show s.mPauseTextureId ∈ (createTexture s.gl s.mAstronautTextureId newId).1.live
      rw [createTexture_live]
      right
      refine ⟨hp, fun hne heq => ?_⟩
      rcases hdist with h1 | h1 | h1
      · exact hne h1
      · exact hne (heq ▸ h1)
      · exact h1 heq.symm
  · show NoDoubleDestroy (createTexture s.gl s.mAstronautTextureId newId).1
    exact releaseHeld_noDouble s.gl _ ha hn
  · show newId = NO_TEXTURE ∨ s.mPauseTextureId = NO_TEXTURE ∨ newId ≠ s.mPauseTextureId
    rcases hp with hp | hp
    · exact Or.inr (Or.inl hp)
    · by_cases heq : newId = s.mPauseTextureId
      · by_cases hne : s.mAstronautTextureId ≠ NO_TEXTURE
        · rcases hdist with h1 | h1 | h1
          · exact absurd h1 hne
          · exact Or.inr (Or.inl h1)
          · exfalso
            exact hfresh ⟨heq ▸ hp, fun _ h2 => h1 (h2.symm.trans heq)⟩
        · exfalso
          exact hfresh ⟨heq ▸ hp, fun h2 => absurd h2 hne⟩
      · exact Or.inr (Or.inr heq)

theorem inv_setPauseTexture (s : Textures) (newId : Nat) (hinv : TexturesInv s)
    (hfresh : newId ∉ (releaseHeld s.gl s.mPauseTextureId).1.live) :
    TexturesInv (setPauseTexture s newId) := by
  obtain ⟨⟨hu, ha, hp⟩, hn, hunit, hdist⟩ := hinv
  rw [mem_releaseHeld] at hfresh
  refine ⟨⟨?_, ?_, ?_⟩, ?_, hunit, ?_⟩
  · exact Or.inl hunit
  · rcases ha with ha | ha
    · exact Or.inl ha
    · right
      show s.mAstronautTextureId ∈ (createTexture s.gl s.mPauseTextureId newId).1.live
      rw [createTexture_live]
      right
      refine ⟨ha, fun hne heq => ?_⟩
      rcases hdist with h1 | h1 | h1
      · exact hne (heq ▸ h1)
      · exact hne h1
      · exact h1 heq
  · right
    show newId ∈ (createTexture s.gl s.mPauseTextureId newId).1.live
    rw [createTexture_live]; exact Or.inl rfl
  · show NoDoubleDestroy (createTexture s.gl s.mPauseTextureId newId).1
    exact releaseHeld_noDouble s.gl _ hp hn
  · show s.mAstronautTextureId = NO_TEXTURE ∨ newId = NO_TEXTURE ∨ s.mAstronautTextureId ≠ newId
    rcases ha with ha | ha
    · exact Or.inl ha
    · by_cases heq : s.mAstronautTextureId = newId
      · by_cases hne : s.mPauseTextureId ≠ NO_TEXTURE
        · rcases hdist with h1 | h1 | h1
          · left; exact h1
          · exact absurd h1 hne
          · exfalso
            exact hfresh ⟨heq ▸ ha, fun _ h2 => h1 (heq.trans h2)⟩
        · exfalso
          exact hfresh ⟨heq ▸ ha, fun h2 => absurd h2 hne⟩
      · exact Or.inr (Or.inr heq)

theorem releaseHeld_none (gl : GLTextures) : releaseHeld gl NO_TEXTURE = (gl, NO_TEXTURE) := by
  simp [releaseHeld]

theorem deinit_eq (s : Textures) (hunit : s.mModelTargetGuideViewTextureUnit = NO_TEXTURE) :
    deinit s =
      { gl := (releaseHeld (releaseHeld s.gl s.mAstronautTextureId).1 s.mPauseTextureId).1
        mModelTargetGuideViewTextureUnit := NO_TEXTURE
        mAstronautTextureId := NO_TEXTURE
        mPauseTextureId := NO_TEXTURE } := by
  obtain ⟨gl, u, a, p⟩ := s
  simp only at hunit
  subst hunit
  by_cases ha : a ≠ NO_TEXTURE <;> by_cases hp : p ≠ NO_TEXTURE <;>
    simp_all [deinit, releaseHeld]

theorem inv_deinit (s : Textures) (hinv : TexturesInv s) : TexturesInv (deinit s) := by
  obtain ⟨⟨hu, ha, hp⟩, hn, hunit, hdist⟩ := hinv
  rw [deinit_eq s hunit]
  refine ⟨⟨Or.inl rfl, Or.inl rfl, Or.inl rfl⟩, ?_, rfl, Or.inl rfl⟩
  apply releaseHeld_noDouble _ _ _ (releaseHeld_noDouble _ _ ha hn)
  rcases hp with hp | hp
  · exact Or.inl hp
  · by_cases hpn : s.mPauseTextureId = NO_TEXTURE
    · exact Or.inl hpn
    · right
      rw [mem_releaseHeld]
      refine ⟨hp, fun hne heq => ?_⟩
      rcases hdist with h1 | h1 | h1
      · exact hne h1
      · exact hpn h1
      · exact h1 heq.symm

theorem deinit_deinit (s : Textures) (hunit : s.mModelTargetGuideViewTextureUnit = NO_TEXTURE) :
    deinit (deinit s) = deinit s := by
  rw [deinit_eq s hunit, deinit_eq _ rfl]
  simp only [releaseHeld_none]

theorem inv_step (s : Textures) (c : Call) (hinv : TexturesInv s) (hfresh : FreshCall s c) :
    TexturesInv (step s c) := by
  cases c with
  | setAstronautTexture newId => exact inv_setAstronautTexture s newId hinv hfresh
  | setPauseTexture newId => exact inv_setPauseTexture s newId hinv hfresh
  | deinit => exact inv_deinit s hinv

theorem inv_run (calls : List Call) :
    ∀ (s : Textures), TexturesInv s → FreshRun s calls → TexturesInv (run s calls) := by
  induction calls with
  | nil => intro s hinv _; exact hinv
  | cons c cs ih =>
    intro s hinv hfresh
    exact ih (step s c) (inv_step s c hinv hfresh.1) hfresh.2

/-- C6: along every sequence of `setAstronautTexture`, `setPauseTexture` and
`deinit` calls that starts with the three handles at `-1`, each handle is `-1`
or the id of a texture created and not yet destroyed; no `destroyTexture` call
hits a texture that is not live; a `set` call destroys the texture held before
(if any) once and then stores the id of the texture it created; after `deinit`
the three handles are `-1` and a second `deinit` changes nothing. -/
theorem texture_handles (live0 : List Nat) (calls : List Call)
    (hfresh : FreshRun (initialTextures live0) calls) :
    HandlesValid (run (initialTextures live0) calls) ∧
    NoDoubleDestroy (run (initialTextures live0) calls).gl ∧
    (∀ newId : Nat,
      (setAstronautTexture (run (initialTextures live0) calls) newId).gl.destroyCalls =
        (run (initialTextures live0) calls).gl.destroyCalls ++
          (if (run (initialTextures live0) calls).mAstronautTextureId ≠ NO_TEXTURE
            then [((run (initialTextures live0) calls).mAstronautTextureId, true)] else []) ∧
      (setAstronautTexture (run (initialTextures live0) calls) newId).mAstronautTextureId = newId ∧
      newId ∈ (setAstronautTexture (run (initialTextures live0) calls) newId).gl.live) ∧
    (∀ newId : Nat,
      (setPauseTexture (run (initialTextures live0) calls) newId).gl.destroyCalls =
        (run (initialTextures live0) calls).gl.destroyCalls ++
          (if (run (initialTextures live0) calls).mPauseTextureId ≠ NO_TEXTURE
            then [((run (initialTextures live0) calls).mPauseTextureId, true)] else []) ∧
      (setPauseTexture (run (initialTextures live0) calls) newId).mPauseTextureId = newId ∧
      newId ∈ (setPauseTexture (run (initialTextures live0) calls) newId).gl.live) ∧
    ((deinit (run (initialTextures live0) calls)).mModelTargetGuideViewTextureUnit = NO_TEXTURE ∧
      (deinit (run (initialTextures live0) calls)).mAstronautTextureId = NO_TEXTURE ∧
      (deinit (run (initialTextures live0) calls)).mPauseTextureId = NO_TEXTURE) ∧
    deinit (deinit (run (initialTextures live0) calls)) =
      deinit (run (initialTextures live0) calls) := by
  have hinv := inv_run calls (initialTextures live0) (inv_initial live0) hfresh
  generalize run (initialTextures live0) calls = s at hinv
  obtain ⟨⟨hu, ha, hp⟩, hn, hunit, hdist⟩ := hinv
  refine ⟨⟨hu, ha, hp⟩, hn, ?_, ?_, ?_, deinit_deinit s hunit⟩
  · intro newId
    refine ⟨?_, rfl, ?_⟩
    · show (createTexture s.gl s.mAstronautTextureId newId).1.destroyCalls = _
      rw [createTexture_calls, releaseHeld_calls _ _ ha]
    · show newId ∈ (createTexture s.gl s.mAstronautTextureId newId).1.live
      rw [createTexture_live]; exact Or.inl rfl
  · intro newId
    refine ⟨?_, rfl, ?_⟩
    · show (createTexture s.gl s.mPauseTextureId newId).1.destroyCalls = _
      rw [createTexture_calls, releaseHeld_calls _ _ hp]
    · show newId ∈ (createTexture s.gl s.mPauseTextureId newId).1.live
      rw [createTexture_live]; exact Or.inl rfl
  · rw [deinit_eq s hunit]
    exact ⟨rfl, rfl, rfl⟩

/-- Witness for C6 on `sampleCalls`, with one texture owned elsewhere. -/
theorem texture_handles_witness :
    FreshRun (initialTextures [7]) sampleCalls ∧
    HandlesValid (run (initialTextures [7]) sampleCalls) ∧
    NoDoubleDestroy (run (initialTextures [7]) sampleCalls).gl ∧
    (run (initialTextures [7]) sampleCalls).gl.destroyCalls =
      [(1, true), (1, true), (2, true), (1, true)] ∧
    deinit (deinit (run (initialTextures [7]) sampleCalls)) =
      deinit (run (initialTextures [7]) sampleCalls) :=
  ⟨by decide, (texture_handles [7] sampleCalls (by decide)).1,
    (texture_handles [7] sampleCalls (by decide)).2.1, by decide,
    (texture_handles [7] sampleCalls (by decide)).2.2.2.2.2⟩

/-! ## `init` -/

/-- The four locations for Pause.png rendering are
the answers for `_vProgram`, the video playback program, whatever the driver. -/
theorem initPrograms_pause_locations (gl : GLDriver) (r : Renderer) :
    (initPrograms gl r)._pProgram =
      gl.createProgramFromBuffer .VERTEX_SHADER_PAUSE .FRAGMENT_SHADER_PAUSE ∧
    (initPrograms gl r)._paPosition =
      gl.glGetAttribLocation (initPrograms gl r)._vProgram "a_Position" ∧
    (initPrograms gl r)._paTexCoordLoc =
      gl.glGetAttribLocation (initPrograms gl r)._vProgram "a_TexCoord" ∧
    (initPrograms gl r)._puProjectionMatrixLoc =
      gl.glGetUniformLocation (initPrograms gl r)._vProgram "u_ProjectionMatrix" ∧
    (initPrograms gl r)._puSampler2D =
      gl.glGetUniformLocation (initPrograms gl r)._vProgram "u_Sampler2D" :=
  ⟨rfl, rfl, rfl, rfl, rfl⟩

/-- C8 at `sampleDriver`: the pause program is program 2 and the video
program is program 1; `_paPosition`, `_paTexCoordLoc` and `_puSampler2D` differ
from the locations that the pause program reports, and the other renderers'
locations are those of their own programs. -/
theorem initPrograms_sampleDriver :
    (initPrograms sampleDriver blankRenderer)._vProgram = 1 ∧
    (initPrograms sampleDriver blankRenderer)._pProgram = 2 ∧
    (initPrograms sampleDriver blankRenderer)._paPosition = 0 ∧
    sampleDriver.glGetAttribLocation (initPrograms sampleDriver blankRenderer)._pProgram
      "a_Position" = 1 ∧
    (initPrograms sampleDriver blankRenderer)._paTexCoordLoc = 1 ∧
    sampleDriver.glGetAttribLocation (initPrograms sampleDriver blankRenderer)._pProgram
      "a_TexCoord" = 0 ∧
    (initPrograms sampleDriver blankRenderer)._puSampler2D = -1 ∧
    sampleDriver.glGetUniformLocation (initPrograms sampleDriver blankRenderer)._pProgram
      "u_Sampler2D" = 1 ∧
    (initPrograms sampleDriver blankRenderer)._vaPosition =
      sampleDriver.glGetAttribLocation (initPrograms sampleDriver blankRenderer)._vProgram
        "a_Position" ∧
    (initPrograms sampleDriver blankRenderer).mVbVertexPositionHandle =
      sampleDriver.glGetAttribLocation
        (initPrograms sampleDriver blankRenderer).mVbShaderProgramID "vertexPosition" := by
  decide

end GLESRenderer
